import Mathlib

/- Shallow embedding of the quietwizar/trading-system repository: the RSI
   indicator shared by the backtests and the live loop, the bar loops of
   backtest_scalp.py and backtest_swing.py, the AlpacaTrader decision cycle
   of core/alpaca_trader.py, and the session summary of core/logger.py,
   together with theorems settling the specification claims.  Python float
   arithmetic is modelled by exact rationals; the two places where IEEE
   special values matter (division by zero inside the RSI formula) are
   modelled explicitly, NaN as Option.none. -/

namespace Trading

/-- Floor of a rational, cast back to the rationals; models the Python
floor division a // b applied as floor(a / b). -/
def ratFloor (q : ℚ) : ℚ := (⌊q⌋ : ℚ)

/-- Python int() applied to a float truncates toward zero. -/
def pyInt (q : ℚ) : ℚ := if 0 ≤ q then (⌊q⌋ : ℚ) else (⌈q⌉ : ℚ)

/-- Flooring to six decimal places, as math.floor(q * 1_000_000) / 1_000_000
in core/alpaca_trader.py. -/
def floor6 (q : ℚ) : ℚ := (⌊q * 1000000⌋ : ℚ) / 1000000

/-! ### RSI indicator

calculate_rsi appears identically in backtest_scalp.py, backtest_swing.py,
optimize_strategy.py and run_live_pair.py:

  delta = prices.diff()
  gain = (delta.where(delta > 0, 0)).rolling(window=period).mean()
  loss = (-delta.where(delta < 0, 0)).rolling(window=period).mean()
  rs = gain / loss
  rsi = 100 - (100 / (1 + rs))

prices.diff() is NaN at index 0; delta.where(delta > 0, 0) replaces that NaN
by 0 because a NaN comparison is false, so the rolling means are already
defined from index period - 1 on, with the zero standing in for the missing
first difference.  The IEEE division gain / loss yields +inf when
loss = 0 < gain, and then 100 - 100 / (1 + inf) = 100; it yields NaN when
gain = loss = 0, modelled as Option.none. -/

/-- Bar-to-bar differences of the price series with the undefined first
difference replaced by zero, as the pandas where(…, 0) does. -/
def deltaFilled (prices : List ℚ) (i : ℕ) : ℚ :=
  if i = 0 then 0 else prices.getD i 0 - prices.getD (i - 1) 0

/-- Sum over the window of the positive parts of the differences,
window of length period ending at index i. -/
def gainSum (prices : List ℚ) (period i : ℕ) : ℚ :=
  ((List.range period).map (fun k => max (deltaFilled prices (i - k)) 0)).sum

/-- Sum over the window of the absolute negative parts of the differences,
window of length period ending at index i. -/
def lossSum (prices : List ℚ) (period i : ℕ) : ℚ :=
  ((List.range period).map (fun k => max (-deltaFilled prices (i - k)) 0)).sum

/-- calculate_rsi evaluated at index i of the series: none where the pandas
series holds NaN (insufficient history, or a flat window where the 0/0
division produces NaN), and the rational value otherwise. -/
def calculateRsi (prices : List ℚ) (period i : ℕ) : Option ℚ :=
  if period = 0 ∨ i + 1 < period ∨ prices.length ≤ i then none
  else if lossSum prices period i / (period : ℚ) = 0 then
    if gainSum prices period i / (period : ℚ) = 0 then none else some 100
  else
    some (100 - 100 / (1 + (gainSum prices period i / (period : ℚ)) /
      (lossSum prices period i / (period : ℚ))))

/-! ### Position state machine of the backtests -/

/-- Sides of the spread position, replacing the string tags
short_spy_long_rsp and long_spy_short_rsp. -/
inductive Side where
  | shortSpyLongRsp
  | longSpyShortRsp
  deriving DecidableEq

/-- Exit reasons of the backtest loops (the swing script prints MAX HOLD and
MEAN REVERSION where the scalp script prints TIME LIMIT and RSI REVERSION;
the slots coincide). -/
inductive ExitReason where
  | profitTarget
  | stopLoss
  | timeLimit
  | meanReversion
  deriving DecidableEq

/-- Policy constants of backtest_scalp.py lines 44-49. -/
structure ScalpConfig where
  rsiOverbought : ℚ
  rsiOversold : ℚ
  capitalUsage : ℚ
  maxHoldBars : ℕ
  profitTarget : ℚ
  stopLoss : ℚ
  deriving DecidableEq

/-- The constants hardcoded in backtest_scalp.py: RSI 65/35, 90% capital
usage, 12-bar maximum hold, 0.5% profit target, 0.3% stop loss. -/
def scalpCfg : ScalpConfig :=
  { rsiOverbought := 65, rsiOversold := 35, capitalUsage := 9 / 10
    maxHoldBars := 12, profitTarget := 1 / 200, stopLoss := 3 / 1000 }

/-- Exit evaluation of backtest_scalp.py lines 95-119: the if/elif chain over
profit target, stop loss, time limit and RSI mean reversion, first match
wins. -/
def scalpExitReason (cfg : ScalpConfig) (pnlPct : ℚ) (bars : ℕ) (side : Side)
    (rsi : ℚ) : Option ExitReason :=
  if cfg.profitTarget ≤ pnlPct then some .profitTarget
  else if pnlPct ≤ -cfg.stopLoss then some .stopLoss
  else if cfg.maxHoldBars ≤ bars then some .timeLimit
  else if side = .shortSpyLongRsp ∧ rsi < 50 then some .meanReversion
  else if side = .longSpyShortRsp ∧ 50 < rsi then some .meanReversion
  else none

/-- Policy constants of backtest_swing.py lines 60-68. -/
structure SwingConfig where
  rsiOverbought : ℚ
  rsiOversold : ℚ
  zscoreHigh : ℚ
  zscoreLow : ℚ
  minHoldDays : ℕ
  maxHoldDays : ℕ
  capitalUsage : ℚ
  stopLoss : ℚ
  profitTarget : ℚ
  deriving DecidableEq

/-- The constants hardcoded in backtest_swing.py. -/
def swingCfg : SwingConfig :=
  { rsiOverbought := 65, rsiOversold := 35, zscoreHigh := 3 / 2
    zscoreLow := -(3 / 2), minHoldDays := 3, maxHoldDays := 20
    capitalUsage := 4 / 5, stopLoss := 1 / 25, profitTarget := 3 / 100 }

/-- Exit evaluation of backtest_swing.py lines 119-143: profit target, stop
loss, maximum hold, then (only once the minimum hold has elapsed) the
side-dependent RSI plus z-score mean-reversion test with the hardcoded 0.5
retracement levels. -/
def swingExitReason (cfg : SwingConfig) (pnlPct : ℚ) (days : ℕ) (side : Side)
    (rsi z : ℚ) : Option ExitReason :=
  if cfg.profitTarget ≤ pnlPct then some .profitTarget
  else if pnlPct ≤ -cfg.stopLoss then some .stopLoss
  else if cfg.maxHoldDays ≤ days then some .timeLimit
  else if cfg.minHoldDays ≤ days then
    match side with
    | .shortSpyLongRsp => if rsi < 50 ∧ z < 1 / 2 then some .meanReversion else none
    | .longSpyShortRsp => if 50 < rsi ∧ -(1 / 2) < z then some .meanReversion else none
  else none

/-- Mutable state of the scalp backtest loop: the portfolio dict fields plus
the current_position and bars_in_position variables. -/
structure ScalpState where
  cash : ℚ
  spyShares : ℚ
  rspShares : ℚ
  entryValue : ℚ
  barsInPosition : ℕ
  position : Option Side
  deriving DecidableEq

/-- Mark-to-market portfolio value, backtest_scalp.py lines 82-84. -/
def portfolioValue (s : ScalpState) (spy rsp : ℚ) : ℚ :=
  s.cash + s.spyShares * spy + s.rspShares * rsp

/-- Closing the spread (backtest_scalp.py lines 121-134): both legs are
returned to cash at the current prices and the position state is cleared. -/
def closePosition (s : ScalpState) (spy rsp : ℚ) : ScalpState :=
  { cash := s.cash + s.spyShares * spy + s.rspShares * rsp
    spyShares := 0
    rspShares := 0
    entryValue := 0
    barsInPosition := 0
    position := none }

/-- Entering short SPY / long RSP (backtest_scalp.py lines 140-157): leg
sizes are floor divisions of the per-leg notional by the leg price, the long
leg is paid from cash and the short sale credits cash. -/
def enterShortSpyLongRsp (cfg : ScalpConfig) (s : ScalpState) (pv spy rsp : ℚ) :
    ScalpState :=
  let positionSize := pv * cfg.capitalUsage / 2
  let spySh : ℚ := -ratFloor (positionSize / spy)
  let rspSh : ℚ := ratFloor (positionSize / rsp)
  { cash := s.cash - rspSh * rsp + -spySh * spy
    spyShares := spySh
    rspShares := rspSh
    entryValue := pv
    barsInPosition := 0
    position := some .shortSpyLongRsp }

/-- Entering long SPY / short RSP (backtest_scalp.py lines 159-176). -/
def enterLongSpyShortRsp (cfg : ScalpConfig) (s : ScalpState) (pv spy rsp : ℚ) :
    ScalpState :=
  let positionSize := pv * cfg.capitalUsage / 2
  let spySh : ℚ := ratFloor (positionSize / spy)
  let rspSh : ℚ := -ratFloor (positionSize / rsp)
  { cash := s.cash - spySh * spy + -rspSh * rsp
    spyShares := spySh
    rspShares := rspSh
    entryValue := pv
    barsInPosition := 0
    position := some .longSpyShortRsp }

/-- Per-bar observations of the scalp loop, used to state the per-bar
claims: whether an exit fired this bar (with its reason) and whether an
entry fired this bar (with its side). -/
structure StepTrace where
  exited : Option ExitReason
  entered : Option Side
  deriving DecidableEq

/-- One iteration of the main bar loop of backtest_scalp.py (lines 75-176):
mark-to-market valuation, then exit evaluation while a position is held,
then entry evaluation whenever current_position is None - including the case
where it became None through an exit earlier in the same iteration. -/
def scalpStep (cfg : ScalpConfig) (s : ScalpState) (spy rsp rsi : ℚ) :
    ScalpState × StepTrace :=
  let pv := portfolioValue s spy rsp
  let exitStage : ScalpState × Option ExitReason :=
    match s.position with
    | none => (s, none)
    | some side =>
      let bars := s.barsInPosition + 1
      let pnlPct := (pv - s.entryValue) / s.entryValue
      match scalpExitReason cfg pnlPct bars side rsi with
      | some r => (closePosition s spy rsp, some r)
      | none => ({ s with barsInPosition := bars }, none)
  let s1 := exitStage.1
  match s1.position with
  | some _ => (s1, { exited := exitStage.2, entered := none })
  | none =>
    if cfg.rsiOverbought < rsi then
      (enterShortSpyLongRsp cfg s1 pv spy rsp,
        { exited := exitStage.2, entered := some .shortSpyLongRsp })
    else if rsi < cfg.rsiOversold then
      (enterLongSpyShortRsp cfg s1 pv spy rsp,
        { exited := exitStage.2, entered := some .longSpyShortRsp })
    else (s1, { exited := exitStage.2, entered := none })

/-! ### AlpacaTrader decision cycle (core/alpaca_trader.py)

The broker, the market-data fetch and the strategy are external
collaborators; one decision cycle observes them through a fixed environment:
what fetch_latest_bars plus strategy.run would deliver, whether an open
order is pending, what get_position answers and what submit_order answers.
run_once is then a pure function of the trader configuration and that
environment.  Exceptions are modelled with Except: an Except.error escaping
runOnce is an exception propagating out of run_once uncaught. -/

/-- Asset classes accepted by the AlpacaTrader constructor. -/
inductive AssetClass where
  | stock
  | crypto
  deriving DecidableEq

/-- Order sides, the strings buy and sell in the source. -/
inductive OrderSide where
  | buy
  | sell
  deriving DecidableEq

/-- Order types, the strings market and limit in the source. -/
inductive OrderType where
  | market
  | limit
  deriving DecidableEq

/-- An alpaca_trade_api APIError: its status_code and its message. -/
structure ApiError where
  status : ℕ
  msg : String
  deriving DecidableEq

/-- The fields of the latest strategy output row that _build_decision reads
via latest.get; none models a missing column or a NaN entry. -/
structure SignalRow where
  signal : Option ℤ
  position : Option ℚ
  close : Option ℚ
  limitPrice : Option ℚ
  targetQty : Option ℚ
  deriving DecidableEq

/-- The TradeDecision dataclass. -/
structure TradeDecision where
  side : OrderSide
  qty : ℚ
  price : ℚ
  orderType : OrderType
  limitPrice : Option ℚ
  deriving DecidableEq

/-- AlpacaTrader._build_decision (lines 150-195).  The argument is the frame
the strategy produced from the fetched bars: none when the fetched frame was
None or empty, otherwise the list of strategy output rows. -/
def buildDecision (ac : AssetClass) (df : Option (List SignalRow)) :
    Option TradeDecision × Option String :=
  match df with
  | none => (none, some "no market data returned")
  | some rows =>
    match rows.getLast? with
    | none => (none, some "strategy returned no rows")
    | some latest =>
      let signal : ℤ := latest.signal.getD 0
      let price : ℚ := latest.close.getD 0
      if price ≤ 0 then (none, some "missing price data")
      else
        let orderType : OrderType :=
          match latest.limitPrice with
          | some _ => .limit
          | none => .market
        let priceForQty : ℚ := latest.limitPrice.getD price
        if priceForQty ≤ 0 then (none, some "invalid price for sizing")
        else
          let qty0 : ℚ := latest.targetQty.getD 0
          if qty0 ≤ 0 then (none, some "target_qty is zero")
          else
            let qty : ℚ :=
              if ac = .crypto then floor6 (qty0 / priceForQty) else qty0
            if ac = .crypto ∧ qty ≤ 0 then
              (none, some "target_qty too small for crypto price")
            else if signal ≠ 0 then
              (some { side := if 0 < signal then .buy else .sell, qty := qty
                      price := price, orderType := orderType
                      limitPrice := latest.limitPrice }, none)
            else
              match latest.position with
              | some p =>
                if p ≠ 0 then
                  (some { side := if 0 < p then .buy else .sell, qty := qty
                          price := price, orderType := orderType
                          limitPrice := latest.limitPrice }, none)
                else (none, some "no signal from strategy")
              | none => (none, some "no signal from strategy")

/-- AlpacaTrader._adjust_qty_for_position (lines 197-217). -/
def adjustQtyForPosition (ac : AssetClass) (d : TradeDecision)
    (netPosition : ℚ) : ℚ × Option String :=
  if d.side = .buy ∧ 0 < netPosition then (0, some "already long")
  else if d.side = .sell ∧ netPosition < 0 then (0, some "already short")
  else if ac = .crypto ∧ d.side = .sell ∧ netPosition ≤ 0 then
    (0, some "crypto shorting disabled")
  else if ac = .stock then
    let q := pyInt d.qty
    if q ≤ 0 then (0, some "share quantity too small") else (q, none)
  else (d.qty, none)

/-- The price _cap_qty_for_notional sizes against: the limit price for a
limit order, the close price otherwise.  A limit decision always carries a
limit price by construction; getD 0 stands in for the unreachable None. -/
def sizingPrice (d : TradeDecision) : ℚ :=
  if d.orderType = .limit then d.limitPrice.getD 0 else d.price

/-- AlpacaTrader._cap_qty_for_notional (lines 219-234). -/
def capQtyForNotional (ac : AssetClass) (maxNotional : Option ℚ)
    (d : TradeDecision) (qty : ℚ) : ℚ :=
  if qty ≤ 0 then qty
  else
    match maxNotional with
    | none => qty
    | some mn =>
      if sizingPrice d ≤ 0 then qty
      else
        let maxQty :=
          if ac = .stock then pyInt (mn / sizingPrice d)
          else floor6 (mn / sizingPrice d)
        if maxQty ≤ 0 then 0 else min qty maxQty

instance instDecEqExcept {ε α : Type} [DecidableEq ε] [DecidableEq α] :
    DecidableEq (Except ε α) := fun x y =>
  match x, y with
  | .error a, .error b =>
    if h : a = b then isTrue (by rw [h]) else isFalse (by simp [h])
  | .ok a, .ok b =>
    if h : a = b then isTrue (by rw [h]) else isFalse (by simp [h])
  | .error _, .ok _ => isFalse (by simp)
  | .ok _, .error _ => isFalse (by simp)

/-- Configuration of one AlpacaTrader instance, the constructor fields the
decision cycle reads. -/
structure Trader where
  assetClass : AssetClass
  dryRun : Bool
  maxOrderNotional : Option ℚ
  deriving DecidableEq

/-- The external world one decision cycle observes.  fetchResult is an
Except: error models fetch_latest_bars raising ValueError (which run_once
catches); ok none models an empty or missing frame; ok (some rows) carries
the strategy output rows.  positionResult and submitResult are the broker
answers to get_position and submit_order, error modelling APIError. -/
structure BrokerEnv where
  fetchResult : Except String (Option (List SignalRow))
  hasOpenOrder : Bool
  positionQty : Except ApiError ℚ
  positionShort : Bool
  submitResult : Except ApiError String
  deriving DecidableEq

/-- AlpacaTrader._get_net_position (lines 112-123): a 404 from get_position
is answered as a net position of zero; any other APIError is re-raised;
otherwise the quantity, negated for a short position. -/
def getNetPosition (env : BrokerEnv) : Except ApiError ℚ :=
  match env.positionQty with
  | .error e => if e.status = 404 then .ok 0 else .error e
  | .ok q => .ok (if env.positionShort then -q else q)

/-- AlpacaTrader._submit_order (lines 236-252): in dry-run mode the order id
dry_run is returned without contacting the broker; otherwise the broker is
asked and may raise; stock quantities are truncated by int() before
sending.  The second component is the order actually sent to the broker. -/
def submitOrder (t : Trader) (env : BrokerEnv) (d : TradeDecision) (qty : ℚ) :
    Except ApiError (String × Option (OrderSide × ℚ)) :=
  if t.dryRun then .ok ("dry_run", none)
  else
    match env.submitResult with
    | .error e => .error e
    | .ok oid =>
      .ok (oid, some (d.side, if t.assetClass = .stock then pyInt qty else qty))

/-- Observable outcome of one run_once call that returned normally:
the order sent to the broker (none when nothing was sent), the trade record
logged by _print_trade (none on every skip path), and the skip reason
passed to _skip_trade. -/
structure RunOutcome where
  brokerOrder : Option (OrderSide × ℚ)
  logged : Option (OrderSide × ℚ × String)
  skipReason : Option String
  deriving DecidableEq

/-- AlpacaTrader.run_once (lines 285-318).  Except.error is an exception
propagating out of run_once uncaught: only ValueError from the fetch and
APIError from submit_order are caught in the source, not APIError raised by
the position lookup. -/
def runOnce (t : Trader) (env : BrokerEnv) : Except ApiError RunOutcome :=
  match env.fetchResult with
  | .error msg => .ok { brokerOrder := none, logged := none, skipReason := some msg }
  | .ok df =>
    match buildDecision t.assetClass df with
    | (none, reason) =>
      .ok { brokerOrder := none, logged := none, skipReason := reason }
    | (some d, _) =>
      if env.hasOpenOrder then
        .ok { brokerOrder := none, logged := none
              skipReason := some "open order already exists" }
      else
        match getNetPosition env with
        | .error e => .error e
        | .ok net =>
          let adjusted := adjustQtyForPosition t.assetClass d net
          if adjusted.1 ≤ 0 then
            .ok { brokerOrder := none, logged := none, skipReason := adjusted.2 }
          else
            let capped := capQtyForNotional t.assetClass t.maxOrderNotional d adjusted.1
            if capped ≤ 0 then
              .ok { brokerOrder := none, logged := none
                    skipReason := some "quantity too small after notional cap" }
            else
              match submitOrder t env d capped with
              | .error e =>
                .ok { brokerOrder := none, logged := none
                      skipReason := some ("order rejected: " ++ e.msg) }
              | .ok (oid, sent) =>
                .ok { brokerOrder := sent
                      logged := some (d.side, capped, oid)
                      skipReason := none }

/-! ### TradeLogger.get_session_summary (core/logger.py lines 184-307)

Trade records are modelled with the four fields the summary reads; equities
and profits are exact rationals, so the np.isfinite filter over the returns
keeps everything (every kept equity is positive, hence every return is a
finite rational) and is a no-op here.  np.std is the population standard
deviation (ddof = 0); the square roots land in the reals. -/

/-- The fields of one trades.csv row that get_session_summary reads. -/
structure TradeRec where
  side : String
  status : String
  equity : ℚ
  netPnl : ℚ
  deriving DecidableEq

/-- The SessionSummary dict returned by get_session_summary. -/
structure SessionSummary where
  totalTrades : ℕ
  buys : ℕ
  sells : ℕ
  wins : ℕ
  losses : ℕ
  winRate : ℚ
  netPnl : ℚ
  startEquity : ℚ
  endEquity : ℚ
  sharpeRatio : ℝ
  volatility : ℝ
  maxDrawdown : ℚ
  avgTradePnl : ℚ

/-- Records whose status is not skipped, rejected or none. -/
def executedOf (trades : List TradeRec) : List TradeRec :=
  trades.filter fun t =>
    t.status ≠ "skipped" ∧ t.status ≠ "rejected" ∧ t.status ≠ "none"

/-- The recorded equity values that parse to a positive number. -/
def equitiesOf (trades : List TradeRec) : List ℚ :=
  (trades.map TradeRec.equity).filter fun e => 0 < e

/-- Per-step simple returns of the equity sequence:
np.diff(equity_arr) / equity_arr[:-1]. -/
def returnsOf (equities : List ℚ) : List ℚ :=
  (equities.zip equities.tail).map fun p => (p.2 - p.1) / p.1

/-- Arithmetic mean of a list of rationals (0 on the empty list, where the
source never evaluates it). -/
def listMean (l : List ℚ) : ℚ := l.sum / l.length

/-- Population variance, the square of np.std with its default ddof = 0. -/
def popVar (l : List ℚ) : ℚ :=
  ((l.map fun r => (r - listMean l) ^ 2).sum) / l.length

/-- Sample variance with ddof = 1.  Modelled from the spec: the phrase
"sample standard deviation of returns" in section 4.5 names this divisor
n - 1 variant, to be compared against the np.std of the source. -/
def sampleVar (l : List ℚ) : ℚ :=
  ((l.map fun r => (r - listMean l) ^ 2).sum) / (l.length - 1 : ℕ)

/-- np.cumprod of (1 + r) over the returns, given the running product so
far. -/
def cumProdAux (acc : ℚ) : List ℚ → List ℚ
  | [] => []
  | r :: rs => (acc * (1 + r)) :: cumProdAux (acc * (1 + r)) rs

/-- np.maximum.accumulate, given the running maximum so far. -/
def runningMaxAux (m : ℚ) : List ℚ → List ℚ
  | [] => []
  | x :: xs => max m x :: runningMaxAux (max m x) xs

/-- np.maximum.accumulate of a list. -/
def runningMax : List ℚ → List ℚ
  | [] => []
  | x :: xs => x :: runningMaxAux x xs

/-- Drawdowns (cumulative - running_max) / running_max over the cumulative
product of (1 + return). -/
def drawdownsOf (returns : List ℚ) : List ℚ :=
  ((cumProdAux 1 returns).zip (runningMax (cumProdAux 1 returns))).map
    fun p => (p.1 - p.2) / p.2

/-- np.min of the drawdowns, 0 when there are none. -/
def minDrawdown (returns : List ℚ) : ℚ :=
  match drawdownsOf returns with
  | [] => 0
  | d :: ds => ds.foldl min d

/-- Per-trade profits: the first record against zero, every later record
against its predecessor, from the recorded net_pnl fields. -/
def tradePnls : List TradeRec → List ℚ
  | [] => []
  | t :: ts => t.netPnl :: ((t :: ts).zip ts).map fun p => p.2.netPnl - p.1.netPnl

/-- TradeLogger.get_session_summary (lines 184-307), as a function of the
trade log rows and the session start equity.  The square root of np.std
lands in the reals, hence this one definition is not executable; every
branch condition and every radicand is an executable rational. -/
noncomputable def getSessionSummary (trades : List TradeRec) (startEquity : ℚ) :
    SessionSummary :=
  let empty : SessionSummary :=
    { totalTrades := 0, buys := 0, sells := 0, wins := 0, losses := 0
      winRate := 0, netPnl := 0, startEquity := startEquity
      endEquity := startEquity, sharpeRatio := 0, volatility := 0
      maxDrawdown := 0, avgTradePnl := 0 }
  if trades = [] then empty
  else
    let executed := executedOf trades
    if executed = [] then empty
    else
      let buys := (executed.filter fun t => t.side = "buy").length
      let sells := (executed.filter fun t => t.side = "sell").length
      let equities0 := equitiesOf executed
      let equities := if equities0 = [] then [startEquity] else equities0
      let endEquity := equities.getLast?.getD startEquity
      let rets := returnsOf equities
      let volatilityRaw : ℝ :=
        if 2 ≤ equities.length ∧ rets ≠ [] ∧ 2 ≤ rets.length then
          Real.sqrt ((popVar rets : ℚ) : ℝ)
        else 0
      let sharpeRaw : ℝ :=
        if 2 ≤ equities.length ∧ rets ≠ [] then
          (if 0 < volatilityRaw then ((listMean rets : ℚ) : ℝ) / volatilityRaw else 0)
            * Real.sqrt 252
        else 0
      let maxDd : ℚ :=
        if 2 ≤ equities.length ∧ rets ≠ [] then minDrawdown rets else 0
      let pnls := tradePnls executed
      let wins := (pnls.filter fun p => 0 < p).length
      let losses := (pnls.filter fun p => p < 0).length
      { totalTrades := executed.length
        buys := buys
        sells := sells
        wins := wins
        losses := losses
        winRate :=
          if 0 < wins + losses then (wins : ℚ) / (wins + losses : ℕ) * 100 else 0
        netPnl := endEquity - startEquity
        startEquity := startEquity
        endEquity := endEquity
        sharpeRatio := sharpeRaw
        volatility := volatilityRaw * 100
        maxDrawdown := maxDd * 100
        avgTradePnl := if pnls = [] then 0 else listMean pnls }

/-! ### Claim theorems -/

/-- Helper: the windowed gain sum is a sum of nonnegative terms. -/
lemma gainSum_nonneg (prices : List ℚ) (period i : ℕ) :
    0 ≤ gainSum prices period i := by
  unfold gainSum
  apply List.sum_nonneg
  intro x hx
  obtain ⟨k, _, rfl⟩ := List.mem_map.mp hx
  exact le_max_right _ _

/-- Helper: the windowed loss sum is a sum of nonnegative terms. -/
lemma lossSum_nonneg (prices : List ℚ) (period i : ℕ) :
    0 ≤ lossSum prices period i := by
  unfold lossSum
  apply List.sum_nonneg
  intro x hx
  obtain ⟨k, _, rfl⟩ := List.mem_map.mp hx
  exact le_max_right _ _

/-- C1: in both backtest variants the exit conditions are evaluated in the
fixed priority order profit target, stop loss, hold-time limit, RSI (plus
z-score in the swing variant) mean reversion, and the first condition that
holds determines the exit reason with no further checks; in particular, when
the profit-target condition and the stop-loss condition hold on the same
bar, the exit reason is the profit target. -/
theorem exit_priority_order (cfg : ScalpConfig) (cfgS : SwingConfig)
    (pnl : ℚ) (bars days : ℕ) (side : Side) (rsi z : ℚ) :
    (cfg.profitTarget ≤ pnl →
      scalpExitReason cfg pnl bars side rsi = some .profitTarget) ∧
    (pnl < cfg.profitTarget → pnl ≤ -cfg.stopLoss →
      scalpExitReason cfg pnl bars side rsi = some .stopLoss) ∧
    (pnl < cfg.profitTarget → -cfg.stopLoss < pnl → cfg.maxHoldBars ≤ bars →
      scalpExitReason cfg pnl bars side rsi = some .timeLimit) ∧
    (pnl < cfg.profitTarget → -cfg.stopLoss < pnl → bars < cfg.maxHoldBars →
      (side = .shortSpyLongRsp ∧ rsi < 50 ∨ side = .longSpyShortRsp ∧ 50 < rsi) →
      scalpExitReason cfg pnl bars side rsi = some .meanReversion) ∧
    (cfg.profitTarget ≤ pnl → pnl ≤ -cfg.stopLoss →
      scalpExitReason cfg pnl bars side rsi = some .profitTarget) ∧
    (cfgS.profitTarget ≤ pnl →
      swingExitReason cfgS pnl days side rsi z = some .profitTarget) ∧
    (pnl < cfgS.profitTarget → pnl ≤ -cfgS.stopLoss →
      swingExitReason cfgS pnl days side rsi z = some .stopLoss) ∧
    (pnl < cfgS.profitTarget → -cfgS.stopLoss < pnl → cfgS.maxHoldDays ≤ days →
      swingExitReason cfgS pnl days side rsi z = some .timeLimit) ∧
    (pnl < cfgS.profitTarget → -cfgS.stopLoss < pnl → days < cfgS.maxHoldDays →
      cfgS.minHoldDays ≤ days →
      (side = .shortSpyLongRsp ∧ rsi < 50 ∧ z < 1 / 2 ∨
        side = .longSpyShortRsp ∧ 50 < rsi ∧ -(1 / 2) < z) →
      swingExitReason cfgS pnl days side rsi z = some .meanReversion) ∧
    (cfgS.profitTarget ≤ pnl → pnl ≤ -cfgS.stopLoss →
      swingExitReason cfgS pnl days side rsi z = some .profitTarget) := by
  refine ⟨?_, ?_, ?_, ?_, ?_, ?_, ?_, ?_, ?_, ?_⟩
  · intro h1
    simp [scalpExitReason, h1]
  · intro h1 h2
    simp [scalpExitReason, not_le.mpr h1, h2]
  · intro h1 h2 h3
    simp [scalpExitReason, not_le.mpr h1, not_le.mpr h2, h3]
  · intro h1 h2 h3 h4
    rcases h4 with ⟨hs, hr⟩ | ⟨hs, hr⟩ <;>
      simp [scalpExitReason, not_le.mpr h1, not_le.mpr h2, not_le.mpr h3, hs, hr]
  · intro h1 _
    simp [scalpExitReason, h1]
  · intro h1
    simp [swingExitReason, h1]
  · intro h1 h2
    simp [swingExitReason, not_le.mpr h1, h2]
  · intro h1 h2 h3
    simp [swingExitReason, not_le.mpr h1, not_le.mpr h2, h3]
  · intro h1 h2 h3 h4 h5
    rcases h5 with ⟨hs, hr, hz⟩ | ⟨hs, hr, hz⟩ <;>
      simp [swingExitReason, not_le.mpr h1, not_le.mpr h2, not_le.mpr h3, h4,
        hs, hr] <;>
      linarith
  · intro h1 _
    simp [swingExitReason, h1]

/-- Witness for C1 at concrete inputs, one per conjunct; the fifth and tenth
use a configuration with a negative stop-loss percentage so that the
profit-target and stop-loss conditions hold on the same bar. -/
theorem exit_priority_order_witness :
    scalpExitReason scalpCfg (1 / 100) 1 .shortSpyLongRsp 60 = some .profitTarget ∧
    scalpExitReason scalpCfg (-(1 / 100)) 1 .shortSpyLongRsp 60 = some .stopLoss ∧
    scalpExitReason scalpCfg 0 12 .shortSpyLongRsp 60 = some .timeLimit ∧
    scalpExitReason scalpCfg 0 1 .shortSpyLongRsp 40 = some .meanReversion ∧
    scalpExitReason ⟨65, 35, 9 / 10, 12, 1 / 200, -(1 / 100)⟩ (1 / 200) 1
      .shortSpyLongRsp 60 = some .profitTarget ∧
    swingExitReason swingCfg (3 / 100) 1 .shortSpyLongRsp 60 0 = some .profitTarget ∧
    swingExitReason swingCfg (-(1 / 25)) 1 .shortSpyLongRsp 60 0 = some .stopLoss ∧
    swingExitReason swingCfg 0 20 .shortSpyLongRsp 60 0 = some .timeLimit ∧
    swingExitReason swingCfg 0 5 .shortSpyLongRsp 40 0 = some .meanReversion ∧
    swingExitReason ⟨65, 35, 3 / 2, -(3 / 2), 3, 20, 4 / 5, -(1 / 10), 3 / 100⟩
      (3 / 100) 1 .shortSpyLongRsp 60 0 = some .profitTarget :=
  ⟨(exit_priority_order scalpCfg swingCfg (1 / 100) 1 1 .shortSpyLongRsp 60 0).1
      (by norm_num [scalpCfg, swingCfg]),
    (exit_priority_order scalpCfg swingCfg (-(1 / 100)) 1 1 .shortSpyLongRsp 60 0).2.1
      (by norm_num [scalpCfg, swingCfg]) (by norm_num [scalpCfg, swingCfg]),
    (exit_priority_order scalpCfg swingCfg 0 12 1 .shortSpyLongRsp 60 0).2.2.1
      (by norm_num [scalpCfg, swingCfg]) (by norm_num [scalpCfg, swingCfg]) (by norm_num [scalpCfg, swingCfg]),
    (exit_priority_order scalpCfg swingCfg 0 1 1 .shortSpyLongRsp 40 0).2.2.2.1
      (by norm_num [scalpCfg, swingCfg]) (by norm_num [scalpCfg, swingCfg]) (by norm_num [scalpCfg, swingCfg]) (by norm_num [scalpCfg, swingCfg]),
    (exit_priority_order ⟨65, 35, 9 / 10, 12, 1 / 200, -(1 / 100)⟩ swingCfg (1 / 200)
      1 1 .shortSpyLongRsp 60 0).2.2.2.2.1 (by norm_num [scalpCfg, swingCfg]) (by norm_num [scalpCfg, swingCfg]),
    (exit_priority_order scalpCfg swingCfg (3 / 100) 1 1 .shortSpyLongRsp 60 0).2.2.2.2.2.1
      (by norm_num [scalpCfg, swingCfg]),
    (exit_priority_order scalpCfg swingCfg (-(1 / 25)) 1 1 .shortSpyLongRsp 60 0).2.2.2.2.2.2.1
      (by norm_num [scalpCfg, swingCfg]) (by norm_num [scalpCfg, swingCfg]),
    (exit_priority_order scalpCfg swingCfg 0 1 20 .shortSpyLongRsp 60 0).2.2.2.2.2.2.2.1
      (by norm_num [scalpCfg, swingCfg]) (by norm_num [scalpCfg, swingCfg]) (by norm_num [scalpCfg, swingCfg]),
    (exit_priority_order scalpCfg swingCfg 0 1 5 .shortSpyLongRsp 40 0).2.2.2.2.2.2.2.2.1
      (by norm_num [scalpCfg, swingCfg]) (by norm_num [scalpCfg, swingCfg]) (by norm_num [scalpCfg, swingCfg]) (by norm_num [scalpCfg, swingCfg]) (by norm_num [scalpCfg, swingCfg]),
    (exit_priority_order scalpCfg ⟨65, 35, 3 / 2, -(3 / 2), 3, 20, 4 / 5, -(1 / 10), 3 / 100⟩
      (3 / 100) 1 1 .shortSpyLongRsp 60 0).2.2.2.2.2.2.2.2.2 (by norm_num [scalpCfg, swingCfg]) (by norm_num [scalpCfg, swingCfg])⟩

/-- Concrete pre-state for C2: short SPY / long RSP, with the profit target
already exceeded at the current prices. -/
def reentryState : ScalpState :=
  { cash := 100, spyShares := -2, rspShares := 4, entryValue := 90
    barsInPosition := 0, position := some .shortSpyLongRsp }

/-- C2 counterexample: at prices spy = 10, rsp = 5 and ratio RSI 70 the scalp
loop closes the position for the profit target and immediately re-enters
short SPY / long RSP on the very same bar, so an exit and an entry are not
mutually exclusive within one bar. -/
theorem same_bar_reentry_cx :
    (scalpStep scalpCfg reentryState 10 5 70).2.exited = some .profitTarget ∧
    (scalpStep scalpCfg reentryState 10 5 70).2.entered = some .shortSpyLongRsp ∧
    (scalpStep scalpCfg reentryState 10 5 70).1.position = some .shortSpyLongRsp := by
  norm_num [scalpStep, scalpCfg, reentryState, portfolioValue, scalpExitReason,
    closePosition, enterShortSpyLongRsp, ratFloor]

/-- C2 (amended): exit and entry are not mutually exclusive within one bar.
The entry block runs after the exit block in the same loop iteration, so on
any bar where an exit condition fires and the RSI is above the overbought
threshold the loop exits and re-enters short SPY / long RSP on that same
bar. -/
theorem same_bar_reentry (cfg : ScalpConfig) (s : ScalpState) (spy rsp rsi : ℚ)
    (side : Side) (hpos : s.position = some side)
    (hexit : scalpExitReason cfg
        ((portfolioValue s spy rsp - s.entryValue) / s.entryValue)
        (s.barsInPosition + 1) side rsi ≠ none)
    (hob : cfg.rsiOverbought < rsi) :
    (scalpStep cfg s spy rsp rsi).2.exited ≠ none ∧
    (scalpStep cfg s spy rsp rsi).2.entered = some .shortSpyLongRsp ∧
    (scalpStep cfg s spy rsp rsi).1.position = some .shortSpyLongRsp := by
  obtain ⟨r, hr⟩ := Option.ne_none_iff_exists.mp hexit
  simp only [scalpStep, hpos, ← hr, closePosition, hob, if_true, if_pos]
  simp [enterShortSpyLongRsp]

/-- Witness for C2 at the concrete bar of the counterexample, through the
amended theorem. -/
theorem same_bar_reentry_witness :
    (scalpStep scalpCfg reentryState 10 5 70).2.exited ≠ none ∧
    (scalpStep scalpCfg reentryState 10 5 70).2.entered = some .shortSpyLongRsp ∧
    (scalpStep scalpCfg reentryState 10 5 70).1.position = some .shortSpyLongRsp :=
  same_bar_reentry scalpCfg reentryState 10 5 70 .shortSpyLongRsp rfl
    (by norm_num [scalpExitReason, scalpCfg, reentryState, portfolioValue,
      Option.some_ne_none])
    (by norm_num [scalpCfg, reentryState])

/-- C3 counterexample: on the constant series [1, 1, 1] with period 2 the
mean loss at index 1 is zero, yet the RSI there is NaN (undefined), not 100:
the 0/0 division of the flat window propagates NaN instead of the mandated
100. -/
theorem rsi_loss_zero_cx :
    lossSum [1, 1, 1] 2 1 / (2 : ℚ) = 0 ∧ calculateRsi [1, 1, 1] 2 1 = none := by
  constructor
  · norm_num [lossSum, deltaFilled, List.range_succ]
  · norm_num [calculateRsi, gainSum, lossSum, deltaFilled, List.range_succ]

/-- C3 (amended): at every in-window index with zero mean loss, the RSI is
100 whenever the mean gain is positive - the division never raises - but on
a flat window (zero mean gain as well) the 0/0 division yields NaN, an
undefined RSI, rather than 100. -/
theorem rsi_loss_zero (prices : List ℚ) (period i : ℕ) (hp : period ≠ 0)
    (hw : period ≤ i + 1) (hi : i < prices.length)
    (hl : lossSum prices period i / (period : ℚ) = 0) :
    (gainSum prices period i / (period : ℚ) ≠ 0 →
      calculateRsi prices period i = some 100) ∧
    (gainSum prices period i / (period : ℚ) = 0 →
      calculateRsi prices period i = none) := by
  have hguard : ¬(period = 0 ∨ i + 1 < period ∨ prices.length ≤ i) := by
    push_neg
    exact ⟨hp, by omega, by omega⟩
  constructor
  · intro hg
    simp [calculateRsi, hguard, hl, hg]
  · intro hg
    simp [calculateRsi, hguard, hl, hg]

/-- Witness for C3: a rising window gives RSI 100, a flat window gives an
undefined RSI. -/
theorem rsi_loss_zero_witness :
    calculateRsi [1, 2, 3] 2 1 = some 100 ∧ calculateRsi [5, 5, 5] 2 1 = none :=
  ⟨(rsi_loss_zero [1, 2, 3] 2 1 (by norm_num) (by norm_num) (by norm_num)
      (by norm_num [lossSum, deltaFilled, List.range_succ])).1
      (by norm_num [gainSum, deltaFilled, List.range_succ]),
    (rsi_loss_zero [5, 5, 5] 2 1 (by norm_num) (by norm_num) (by norm_num)
      (by norm_num [lossSum, deltaFilled, List.range_succ])).2
      (by norm_num [gainSum, deltaFilled, List.range_succ])⟩

/-- C4 counterexample: with period 2, index 1 lies among the first period
indices of the series, yet the RSI is already defined there (the pandas
where(…, 0) fill turns the missing first difference into a zero, so only
period - 1 leading indices are undefined). -/
theorem rsi_warmup_cx :
    1 < 2 ∧ calculateRsi [1, 2, 3] 2 1 = some 100 := by
  refine ⟨by norm_num, ?_⟩
  norm_num [calculateRsi, gainSum, lossSum, deltaFilled, List.range_succ]

/-- C4 (amended): the RSI lies in [0, 100] wherever it is defined, and it is
undefined at each of the first period - 1 indices of the series; the index
period - 1 itself can already carry a defined value. -/
theorem rsi_bounds_and_warmup (prices : List ℚ) (period : ℕ) :
    (∀ i, i + 1 < period → calculateRsi prices period i = none) ∧
    (∀ i x, calculateRsi prices period i = some x → 0 ≤ x ∧ x ≤ 100) := by
  constructor
  · intro i h
    simp [calculateRsi, h]
  · intro i x h
    unfold calculateRsi at h
    rcases Decidable.em (period = 0 ∨ i + 1 < period ∨ prices.length ≤ i) with hg | hg
    · rw [if_pos hg] at h
      exact Option.noConfusion h
    · rw [if_neg hg] at h
      have hper : (0 : ℚ) < (period : ℚ) := by
        push_neg at hg
        exact_mod_cast Nat.pos_of_ne_zero hg.1
      rcases Decidable.em (lossSum prices period i / (period : ℚ) = 0) with hl | hl
      · rw [if_pos hl] at h
        rcases Decidable.em (gainSum prices period i / (period : ℚ) = 0) with hga | hga
        · rw [if_pos hga] at h
          exact Option.noConfusion h
        · rw [if_neg hga] at h
          obtain rfl : (100 : ℚ) = x := Option.some.inj h
          norm_num
      · rw [if_neg hl] at h
        obtain rfl : 100 - 100 / (1 + gainSum prices period i / (period : ℚ) /
            (lossSum prices period i / (period : ℚ))) = x := Option.some.inj h
        have hgain : 0 ≤ gainSum prices period i / (period : ℚ) :=
          div_nonneg (gainSum_nonneg prices period i) (le_of_lt hper)
        have hloss : 0 < lossSum prices period i / (period : ℚ) :=
          lt_of_le_of_ne
            (div_nonneg (lossSum_nonneg prices period i) (le_of_lt hper))
            (Ne.symm hl)
        have hrs : 0 ≤ gainSum prices period i / (period : ℚ) /
            (lossSum prices period i / (period : ℚ)) :=
          div_nonneg hgain (le_of_lt hloss)
        have hpos : (0 : ℚ) < 1 + gainSum prices period i / (period : ℚ) /
            (lossSum prices period i / (period : ℚ)) := by linarith
        have hdivle : 100 / (1 + gainSum prices period i / (period : ℚ) /
            (lossSum prices period i / (period : ℚ))) ≤ 100 :=
          div_le_self (by norm_num) (by linarith)
        have hdivpos : 0 < 100 / (1 + gainSum prices period i / (period : ℚ) /
            (lossSum prices period i / (period : ℚ))) :=
          div_pos (by norm_num) hpos
        constructor <;> linarith

/-- Witness for C4: with period 3 the first two indices are undefined, and a
defined concrete value is certified inside the bounds. -/
theorem rsi_bounds_and_warmup_witness :
    calculateRsi [1, 2, 3, 4] 3 1 = none ∧
    (0 : ℚ) ≤ 100 ∧ (100 : ℚ) ≤ 100 :=
  ⟨(rsi_bounds_and_warmup [1, 2, 3, 4] 3).1 1 (by norm_num),
    (rsi_bounds_and_warmup [1, 2, 3, 4] 3).2 2 100
      (by norm_num [calculateRsi, gainSum, lossSum, deltaFilled, List.range_succ])⟩

/-- C5: entering a spread position from a flat portfolio and exiting it on
the same bar at unchanged prices leaves equity exactly unchanged, in both
entry directions - the flooring of the leg quantities shifts value between
cash and the legs but never out of the portfolio, so equity is preserved
even without a rounding allowance. -/
theorem round_trip_equity (cfg : ScalpConfig) (s : ScalpState) (spy rsp : ℚ)
    (hspy : 0 < spy) (hrsp : 0 < rsp) (hflatA : s.spyShares = 0)
    (hflatB : s.rspShares = 0) :
    portfolioValue
        (closePosition
          (enterShortSpyLongRsp cfg s (portfolioValue s spy rsp) spy rsp) spy rsp)
        spy rsp = portfolioValue s spy rsp ∧
    portfolioValue
        (closePosition
          (enterLongSpyShortRsp cfg s (portfolioValue s spy rsp) spy rsp) spy rsp)
        spy rsp = portfolioValue s spy rsp := by
  constructor <;>
    · simp only [portfolioValue, closePosition, enterShortSpyLongRsp,
        enterLongSpyShortRsp, hflatA, hflatB]
      ring

/-- A flat portfolio at the starting capital of the scalp backtest. -/
def flatState : ScalpState :=
  { cash := 100000, spyShares := 0, rspShares := 0, entryValue := 0
    barsInPosition := 0, position := none }

/-- Witness for C5 at the spec scenario prices 500 and 100. -/
theorem round_trip_equity_witness :
    portfolioValue
        (closePosition
          (enterShortSpyLongRsp scalpCfg flatState
            (portfolioValue flatState 500 100) 500 100) 500 100)
        500 100 = portfolioValue flatState 500 100 ∧
    portfolioValue
        (closePosition
          (enterLongSpyShortRsp scalpCfg flatState
            (portfolioValue flatState 500 100) 500 100) 500 100)
        500 100 = portfolioValue flatState 500 100 :=
  round_trip_equity scalpCfg flatState 500 100 (by norm_num) (by norm_num) rfl rfl

/-- Helper: with an open order pending, run_once returns normally with no
broker order and no logged trade, whatever the rest of the environment. -/
lemma runOnce_openOrder (t : Trader) (env : BrokerEnv)
    (h : env.hasOpenOrder = true) :
    ∃ reason, runOnce t env =
      .ok { brokerOrder := none, logged := none, skipReason := reason } := by
  rcases hf : env.fetchResult with msg | df
  · exact ⟨some msg, by unfold runOnce; rw [hf]⟩
  · rcases hb : buildDecision t.assetClass df with ⟨dec, reason⟩
    rcases dec with _ | d
    · exact ⟨reason, by unfold runOnce; simp only [hf, hb]⟩
    · exact ⟨some "open order already exists", by
        unfold runOnce; simp only [hf, hb]; simp [h]⟩

/-- C6: whenever an open order already exists for the instrument, run_once
sends nothing to the broker and logs no trade; as soon as a candidate
decision was derived the skip reason is "open order already exists"; and
over any sequence of cycles all under a pending open order, no order is ever
submitted. -/
theorem open_order_idempotency (t : Trader) (env : BrokerEnv)
    (h : env.hasOpenOrder = true) :
    (∃ reason, runOnce t env =
      .ok { brokerOrder := none, logged := none, skipReason := reason }) ∧
    (∀ df d r, env.fetchResult = .ok df →
      buildDecision t.assetClass df = (some d, r) →
      runOnce t env = .ok { brokerOrder := none, logged := none
                            skipReason := some "open order already exists" }) ∧
    (∀ envs : List BrokerEnv, (∀ e ∈ envs, e.hasOpenOrder = true) →
      ∀ e ∈ envs, ∀ res, runOnce t e = .ok res →
        res.brokerOrder = none ∧ res.logged = none) := by
  refine ⟨runOnce_openOrder t env h, ?_, ?_⟩
  · intro df d r hf hb
    unfold runOnce
    simp only [hf, hb]
    simp [h]
  · intro envs hall e he res hres
    obtain ⟨reason, hrun⟩ := runOnce_openOrder t e (hall e he)
    rw [hrun] at hres
    cases Except.ok.inj hres
    exact ⟨rfl, rfl⟩

/-- Helper: the two asset classes are distinct. -/
lemma stock_ne_crypto : (AssetClass.stock : AssetClass) ≠ .crypto := by decide

/-- Helper: the two order sides are distinct. -/
lemma buy_ne_sell : (OrderSide.buy : OrderSide) ≠ .sell := by decide

/-- Helper: the two order types are distinct. -/
lemma market_ne_limit : (OrderType.market : OrderType) ≠ .limit := by decide

/-- A strategy row driving the C6 and C7 witnesses: buy signal, close 10,
target quantity 5. -/
def demoRow : SignalRow :=
  { signal := some 1, position := none, close := some 10, limitPrice := none
    targetQty := some 5 }

/-- The decision _build_decision derives from demoRow for a stock trader. -/
def demoDecision : TradeDecision :=
  { side := .buy, qty := 5, price := 10, orderType := .market, limitPrice := none }

/-- Witness environment for C6: open order pending, everything else
benign. -/
def openOrderEnv : BrokerEnv :=
  { fetchResult := .ok (some [demoRow]), hasOpenOrder := true
    positionQty := .ok 0, positionShort := false, submitResult := .ok "oid-1" }

/-- Witness for C6 on a stock trader with a pending open order. -/
theorem open_order_idempotency_witness :
    runOnce ⟨.stock, false, none⟩ openOrderEnv =
      .ok { brokerOrder := none, logged := none
            skipReason := some "open order already exists" } :=
  (open_order_idempotency ⟨.stock, false, none⟩ openOrderEnv rfl).2.1
    (some [demoRow]) demoDecision none rfl
    (by norm_num [buildDecision, demoRow, demoDecision, stock_ne_crypto])

/-- Helper: pyInt agrees with the floor on nonnegative arguments. -/
lemma pyInt_eq_ratFloor (q : ℚ) (h : 0 ≤ q) : pyInt q = ratFloor q := if_pos h

/-- Helper: flooring to six decimals never rounds up. -/
lemma floor6_le (q : ℚ) : floor6 q ≤ q := by
  unfold floor6
  rw [div_le_iff₀ (by norm_num : (0 : ℚ) < 1000000)]
  exact Int.floor_le _

/-- Helper: flooring to six decimals preserves nonnegativity. -/
lemma floor6_nonneg (q : ℚ) (h : 0 ≤ q) : 0 ≤ floor6 q := by
  unfold floor6
  positivity

/-- Helper: the floor cast to the rationals never exceeds the argument. -/
lemma ratFloor_le (q : ℚ) : ratFloor q ≤ q := Int.floor_le q

/-- Helper: the floor cast to the rationals preserves nonnegativity. -/
lemma ratFloor_nonneg (q : ℚ) (h : 0 ≤ q) : 0 ≤ ratFloor q := by
  unfold ratFloor
  positivity

/-- C7: the notional cap equals min(qty, floor(max_notional / price)) with
per-asset-class rounding (whole units for stock, six decimal places for
crypto); the capped notional never exceeds max_order_notional at all (a
fortiori not by more than one rounding unit); and when the cap brings the
quantity to zero or below, run_once submits nothing and skips with reason
"quantity too small after notional cap". -/
theorem notional_cap_correct (ac : AssetClass) (mn : ℚ) (d : TradeDecision)
    (qty : ℚ) (hq : 0 < qty) (hmn : 0 ≤ mn) (hp : 0 < sizingPrice d) :
    (capQtyForNotional ac (some mn) d qty =
      min qty (if ac = .stock then ratFloor (mn / sizingPrice d)
        else floor6 (mn / sizingPrice d))) ∧
    (capQtyForNotional ac (some mn) d qty * sizingPrice d ≤ mn) ∧
    (∀ t env df dd net, env.fetchResult = .ok df →
      buildDecision t.assetClass df = (some dd, none) →
      env.hasOpenOrder = false → getNetPosition env = .ok net →
      0 < (adjustQtyForPosition t.assetClass dd net).1 →
      capQtyForNotional t.assetClass t.maxOrderNotional dd
        (adjustQtyForPosition t.assetClass dd net).1 ≤ 0 →
      runOnce t env = .ok { brokerOrder := none, logged := none
                            skipReason := some "quantity too small after notional cap" }) := by
  have hdivnn : 0 ≤ mn / sizingPrice d := div_nonneg hmn (le_of_lt hp)
  have hroundnn : 0 ≤ (if ac = .stock then ratFloor (mn / sizingPrice d)
      else floor6 (mn / sizingPrice d)) := by
    split
    · exact ratFloor_nonneg _ hdivnn
    · exact floor6_nonneg _ hdivnn
  have hroundle : (if ac = .stock then ratFloor (mn / sizingPrice d)
      else floor6 (mn / sizingPrice d)) ≤ mn / sizingPrice d := by
    split
    · exact ratFloor_le _
    · exact floor6_le _
  have hcap : capQtyForNotional ac (some mn) d qty =
      min qty (if ac = .stock then ratFloor (mn / sizingPrice d)
        else floor6 (mn / sizingPrice d)) := by
    have hstep : capQtyForNotional ac (some mn) d qty =
        (if sizingPrice d ≤ 0 then qty
          else
            if (if ac = .stock then pyInt (mn / sizingPrice d)
                else floor6 (mn / sizingPrice d)) ≤ 0 then 0
            else min qty (if ac = .stock then pyInt (mn / sizingPrice d)
                else floor6 (mn / sizingPrice d))) := by
      unfold capQtyForNotional
      rw [if_neg (not_le.mpr hq)]
    rw [hstep, if_neg (not_le.mpr hp)]
    rcases Decidable.em (ac = .stock) with hs | hs
    · rw [if_pos hs, if_pos hs, pyInt_eq_ratFloor _ hdivnn]
      rcases Decidable.em (ratFloor (mn / sizingPrice d) ≤ 0) with hz | hz
      · have : ratFloor (mn / sizingPrice d) = 0 :=
          le_antisymm hz (ratFloor_nonneg _ hdivnn)
        rw [if_pos hz, this, min_eq_right (le_of_lt hq)]
      · rw [if_neg hz]
    · rw [if_neg hs, if_neg hs]
      rcases Decidable.em (floor6 (mn / sizingPrice d) ≤ 0) with hz | hz
      · have : floor6 (mn / sizingPrice d) = 0 :=
          le_antisymm hz (floor6_nonneg _ hdivnn)
        rw [if_pos hz, this, min_eq_right (le_of_lt hq)]
      · rw [if_neg hz]
  refine ⟨hcap, ?_, ?_⟩
  · rw [hcap]
    have h1 : min qty (if ac = .stock then ratFloor (mn / sizingPrice d)
        else floor6 (mn / sizingPrice d)) ≤ mn / sizingPrice d :=
      le_trans (min_le_right _ _) hroundle
    calc min qty (if ac = .stock then ratFloor (mn / sizingPrice d)
          else floor6 (mn / sizingPrice d)) * sizingPrice d
        ≤ (mn / sizingPrice d) * sizingPrice d :=
          mul_le_mul_of_nonneg_right h1 (le_of_lt hp)
      _ = mn := div_mul_cancel₀ mn (ne_of_gt hp)
  · intro t env df dd net hf hb hopen hnet hadj hcapped
    unfold runOnce
    simp only [hf, hb, hopen, Bool.false_eq_true, if_false, hnet]
    rw [if_neg (not_le.mpr hadj), if_pos hcapped]

/-- Trader and environment for the C7 witness: a stock trader with a
max-order-notional of zero, so the cap floors the quantity to zero and the
cycle is skipped. -/
def zeroCapTrader : Trader := { assetClass := .stock, dryRun := false
                                maxOrderNotional := some 0 }

/-- Environment for the C7 witness: valid data, no open order, flat
position. -/
def zeroCapEnv : BrokerEnv :=
  { fetchResult := .ok (some [demoRow]), hasOpenOrder := false
    positionQty := .ok 0, positionShort := false, submitResult := .ok "oid-2" }

/-- Witness for C7: the cap formula and the notional bound at max notional
100, price 10, quantity 7; and the skip at a zero max notional. -/
theorem notional_cap_correct_witness :
    capQtyForNotional .stock (some 100) demoDecision 7 =
      min 7 (ratFloor (100 / sizingPrice demoDecision)) ∧
    capQtyForNotional .stock (some 100) demoDecision 7 *
      sizingPrice demoDecision ≤ 100 ∧
    runOnce zeroCapTrader zeroCapEnv =
      .ok { brokerOrder := none, logged := none
            skipReason := some "quantity too small after notional cap" } :=
  ⟨by
    have h := (notional_cap_correct .stock 100 demoDecision 7 (by norm_num)
      (by norm_num) (by norm_num [sizingPrice, demoDecision, market_ne_limit])).1
    simpa using h,
    (notional_cap_correct .stock 100 demoDecision 7 (by norm_num) (by norm_num)
      (by norm_num [sizingPrice, demoDecision, market_ne_limit])).2.1,
    (notional_cap_correct .stock 100 demoDecision 7 (by norm_num) (by norm_num)
      (by norm_num [sizingPrice, demoDecision, market_ne_limit])).2.2 zeroCapTrader zeroCapEnv
      (some [demoRow]) demoDecision 0 rfl
      (by norm_num [buildDecision, demoRow, demoDecision, stock_ne_crypto, zeroCapTrader]) rfl rfl
      (by norm_num [adjustQtyForPosition, demoDecision, pyInt, stock_ne_crypto, buy_ne_sell, zeroCapTrader])
      (by norm_num [adjustQtyForPosition, capQtyForNotional, sizingPrice,
        demoDecision, zeroCapTrader, pyInt, ratFloor, stock_ne_crypto, buy_ne_sell,
        market_ne_limit])⟩

/-- A live stock trader with no notional cap, for the C8 theorems. -/
def liveTrader : Trader :=
  { assetClass := .stock, dryRun := false, maxOrderNotional := none }

/-- Environment in which the position lookup raises a non-404 APIError. -/
def brokenPositionEnv : BrokerEnv :=
  { fetchResult := .ok (some [demoRow]), hasOpenOrder := false
    positionQty := .error { status := 500, msg := "internal error" }
    positionShort := false, submitResult := .ok "oid-3" }

/-- C8 counterexample: a non-404 broker error from the position lookup does
not abort only the current cycle with an order-rejected skip - it escapes
run_once as an uncaught exception (and the polling loop in run() does not
catch it either), contradicting the claim that every non-404 broker error is
logged as a skip and never propagates. -/
theorem broker_error_crash_cx :
    runOnce liveTrader brokenPositionEnv =
      .error { status := 500, msg := "internal error" } := by
  norm_num [runOnce, buildDecision, getNetPosition, demoRow, liveTrader,
    brokenPositionEnv, stock_ne_crypto]

/-- C8 (amended): a 404 from the position lookup is treated as a net
position of zero; an APIError raised by order submission aborts only the
current cycle, logged as a skip with reason "order rejected: …" and with no
order sent and no state change; but a non-404 APIError from the position
lookup is not caught and propagates out of run_once (crashing the polling
loop). -/
theorem broker_error_handling :
    (∀ env e, env.positionQty = .error e → e.status = 404 →
      getNetPosition env = .ok 0) ∧
    (∀ (t : Trader) env df d net, env.fetchResult = .ok df →
      buildDecision t.assetClass df = (some d, none) →
      env.hasOpenOrder = false → getNetPosition env = .ok net →
      0 < (adjustQtyForPosition t.assetClass d net).1 →
      0 < capQtyForNotional t.assetClass t.maxOrderNotional d
        (adjustQtyForPosition t.assetClass d net).1 →
      t.dryRun = false → ∀ e, env.submitResult = .error e →
      runOnce t env = .ok { brokerOrder := none, logged := none
                            skipReason := some ("order rejected: " ++ e.msg) }) ∧
    (∀ (t : Trader) env df d e, env.fetchResult = .ok df →
      buildDecision t.assetClass df = (some d, none) →
      env.hasOpenOrder = false → env.positionQty = .error e →
      e.status ≠ 404 → runOnce t env = .error e) := by
  refine ⟨?_, ?_, ?_⟩
  · intro env e h h404
    unfold getNetPosition
    simp only [h]
    rw [if_pos h404]
  · intro t env df d net hf hb hopen hnet hadj hcap hdry e hsub
    unfold runOnce
    simp only [hf, hb, hopen, Bool.false_eq_true, if_false, hnet]
    rw [if_neg (not_le.mpr hadj), if_neg (not_le.mpr hcap)]
    unfold submitOrder
    simp only [hdry, Bool.false_eq_true, if_false, hsub]
  · intro t env df d e hf hb hopen hpq h404
    have hnet : getNetPosition env = .error e := by
      unfold getNetPosition
      simp only [hpq]
      rw [if_neg h404]
    unfold runOnce
    simp only [hf, hb, hopen, Bool.false_eq_true, if_false, hnet]

/-- Environment whose position lookup answers 404 (no position exists). -/
def noPositionEnv : BrokerEnv :=
  { fetchResult := .ok (some [demoRow]), hasOpenOrder := false
    positionQty := .error { status := 404, msg := "position does not exist" }
    positionShort := false, submitResult := .ok "oid-4" }

/-- Environment whose order submission is rejected by the broker. -/
def rejectedOrderEnv : BrokerEnv :=
  { fetchResult := .ok (some [demoRow]), hasOpenOrder := false
    positionQty := .ok 0, positionShort := false
    submitResult := .error { status := 403, msg := "insufficient buying power" } }

/-- Witness for C8: the 404 lookup returns zero, the rejected submission is
skipped with the order-rejected reason, and the non-404 lookup error
propagates. -/
theorem broker_error_handling_witness :
    getNetPosition noPositionEnv = .ok 0 ∧
    runOnce liveTrader rejectedOrderEnv =
      .ok { brokerOrder := none, logged := none
            skipReason := some ("order rejected: " ++ "insufficient buying power") } ∧
    runOnce liveTrader brokenPositionEnv =
      .error { status := 500, msg := "internal error" } :=
  ⟨broker_error_handling.1 noPositionEnv
      { status := 404, msg := "position does not exist" } rfl rfl,
    broker_error_handling.2.1 liveTrader rejectedOrderEnv (some [demoRow])
      demoDecision 0 rfl
      (by norm_num [buildDecision, demoRow, demoDecision, stock_ne_crypto, liveTrader])
      rfl (by norm_num [getNetPosition, rejectedOrderEnv])
      (by norm_num [adjustQtyForPosition, demoDecision, pyInt, stock_ne_crypto,
        buy_ne_sell, liveTrader])
      (by norm_num [adjustQtyForPosition, capQtyForNotional, demoDecision, pyInt,
        stock_ne_crypto, buy_ne_sell, liveTrader])
      rfl { status := 403, msg := "insufficient buying power" } rfl,
    broker_error_handling.2.2 liveTrader brokenPositionEnv (some [demoRow])
      demoDecision { status := 500, msg := "internal error" } rfl
      (by norm_num [buildDecision, demoRow, demoDecision, stock_ne_crypto, liveTrader])
      rfl rfl (by norm_num)⟩

/-- C10: for a crypto instrument _build_decision reads target_qty as a USD
notional: the order quantity is target_qty divided by the sizing price (the
limit price when present, otherwise the latest close), floored to six
decimal places; when that floors to zero or below, the decision is a skip
with reason "target_qty too small for crypto price" and run_once submits
nothing in that cycle. -/
theorem crypto_notional_sizing (rows : List SignalRow) (latest : SignalRow)
    (hlast : rows.getLast? = some latest) (c tq : ℚ) (z : ℤ)
    (hc : latest.close = some c) (hcpos : 0 < c)
    (htq : latest.targetQty = some tq) (htqpos : 0 < tq)
    (hp : 0 < latest.limitPrice.getD c)
    (hz : latest.signal = some z) (hz0 : z ≠ 0) :
    (0 < floor6 (tq / latest.limitPrice.getD c) →
      buildDecision .crypto (some rows) =
        (some { side := if 0 < z then .buy else .sell
                qty := floor6 (tq / latest.limitPrice.getD c)
                price := c
                orderType := match latest.limitPrice with
                  | some _ => .limit
                  | none => .market
                limitPrice := latest.limitPrice }, none)) ∧
    (floor6 (tq / latest.limitPrice.getD c) ≤ 0 →
      buildDecision .crypto (some rows) =
        (none, some "target_qty too small for crypto price")) ∧
    (∀ (t : Trader) env, t.assetClass = .crypto →
      env.fetchResult = .ok (some rows) →
      floor6 (tq / latest.limitPrice.getD c) ≤ 0 →
      runOnce t env = .ok { brokerOrder := none, logged := none
                            skipReason := some "target_qty too small for crypto price" }) := by
  have h2 : floor6 (tq / latest.limitPrice.getD c) ≤ 0 →
      buildDecision .crypto (some rows) =
        (none, some "target_qty too small for crypto price") := by
    intro hq
    unfold buildDecision
    simp only [hlast, hc, Option.getD_some, htq, hz]
    rw [if_neg (not_le.mpr hcpos), if_neg (not_le.mpr hp), if_neg (not_le.mpr htqpos)]
    simp [hq]
  refine ⟨?_, h2, ?_⟩
  · intro hq
    unfold buildDecision
    simp only [hlast, hc, Option.getD_some, htq, hz]
    rw [if_neg (not_le.mpr hcpos), if_neg (not_le.mpr hp), if_neg (not_le.mpr htqpos)]
    simp [not_le.mpr hq, hz0]
  · intro t env hac hf hq
    unfold runOnce
    simp only [hf, hac, h2 hq]

/-- A crypto strategy row with close 10 and a 5-dollar target notional. -/
def cryptoRow : SignalRow :=
  { signal := some 1, position := none, close := some 10, limitPrice := none
    targetQty := some 5 }

/-- A crypto strategy row whose notional is dust relative to the price. -/
def dustRow : SignalRow :=
  { signal := some 1, position := none, close := some 1000000
    limitPrice := none, targetQty := some (1 / 4) }

/-- A live crypto trader with no notional cap. -/
def cryptoTrader : Trader :=
  { assetClass := .crypto, dryRun := false, maxOrderNotional := none }

/-- Environment delivering the dust row to the crypto trader. -/
def dustEnv : BrokerEnv :=
  { fetchResult := .ok (some [dustRow]), hasOpenOrder := false
    positionQty := .ok 0, positionShort := false, submitResult := .ok "oid-5" }

/-- Witness for C10: a 5-dollar notional at price 10 becomes 0.5 units; a
quarter-dollar notional at price 1000000 floors to zero and the cycle is
skipped. -/
theorem crypto_notional_sizing_witness :
    buildDecision .crypto (some [cryptoRow]) =
      (some { side := .buy, qty := 1 / 2, price := 10, orderType := .market
              limitPrice := none }, none) ∧
    buildDecision .crypto (some [dustRow]) =
      (none, some "target_qty too small for crypto price") ∧
    runOnce cryptoTrader dustEnv =
      .ok { brokerOrder := none, logged := none
            skipReason := some "target_qty too small for crypto price" } := by
  refine ⟨?_, ?_, ?_⟩
  · have h := (crypto_notional_sizing [cryptoRow] cryptoRow rfl 10 5 1 rfl
      (by norm_num) rfl (by norm_num)
      (by norm_num [cryptoRow, Option.getD_none]) rfl (by norm_num)).1
      (by norm_num [cryptoRow, Option.getD_none, floor6])
    have hval : floor6 ((5 : ℚ) / 10) = 1 / 2 := by norm_num [floor6]
    simp only [cryptoRow, Option.getD_none] at h
    rw [hval] at h
    simpa using h
  · exact (crypto_notional_sizing [dustRow] dustRow rfl 1000000 (1 / 4) 1 rfl
      (by norm_num) rfl (by norm_num)
      (by norm_num [dustRow, Option.getD_none]) rfl (by norm_num)).2.1
      (by norm_num [dustRow, Option.getD_none, floor6])
  · exact (crypto_notional_sizing [dustRow] dustRow rfl 1000000 (1 / 4) 1 rfl
      (by norm_num) rfl (by norm_num)
      (by norm_num [dustRow, Option.getD_none]) rfl (by norm_num)).2.2
      cryptoTrader dustEnv rfl rfl
      (by norm_num [dustRow, Option.getD_none, floor6])

/-- Helper: there is one return fewer than there are equity points. -/
lemma returnsOf_length (l : List ℚ) : (returnsOf l).length = l.length - 1 := by
  unfold returnsOf
  rw [List.length_map, List.length_zip, List.length_tail]
  omega

/-- Helper: with at least two returns, the summary volatility field is 100
times the square root of the population variance of the returns. -/
lemma summary_volatility_eq (trades : List TradeRec) (startE : ℚ)
    (h3 : 2 ≤ (returnsOf (equitiesOf (executedOf trades))).length) :
    (getSessionSummary trades startE).volatility =
      Real.sqrt ((popVar (returnsOf (equitiesOf (executedOf trades))) : ℚ) : ℝ)
        * 100 := by
  have h0 : equitiesOf (executedOf trades) ≠ [] := by
    intro h
    rw [h] at h3
    simp [returnsOf] at h3
  have h1 : executedOf trades ≠ [] := by
    intro h
    rw [h] at h0
    simp [equitiesOf] at h0
  have h2 : trades ≠ [] := by
    intro h
    rw [h] at h1
    simp [executedOf] at h1
  have hlen : 2 ≤ (equitiesOf (executedOf trades)).length := by
    have := returnsOf_length (equitiesOf (executedOf trades))
    omega
  have hne : returnsOf (equitiesOf (executedOf trades)) ≠ [] := by
    intro h
    rw [h] at h3
    simp at h3
  simp only [getSessionSummary]
  rw [if_neg h2, if_neg h1]
  simp only [if_neg h0]
  rw [if_pos ⟨hlen, hne, h3⟩]

/-- Helper: with at least two returns, the summary sharpe field divides the
mean return by the unscaled population standard deviation and multiplies by
the square root of 252. -/
lemma summary_sharpe_eq (trades : List TradeRec) (startE : ℚ)
    (h3 : 2 ≤ (returnsOf (equitiesOf (executedOf trades))).length) :
    (getSessionSummary trades startE).sharpeRatio =
      (if 0 < Real.sqrt ((popVar (returnsOf (equitiesOf (executedOf trades))) : ℚ) : ℝ)
        then ((listMean (returnsOf (equitiesOf (executedOf trades))) : ℚ) : ℝ) /
          Real.sqrt ((popVar (returnsOf (equitiesOf (executedOf trades))) : ℚ) : ℝ)
        else 0) * Real.sqrt 252 := by
  have h0 : equitiesOf (executedOf trades) ≠ [] := by
    intro h
    rw [h] at h3
    simp [returnsOf] at h3
  have h1 : executedOf trades ≠ [] := by
    intro h
    rw [h] at h0
    simp [equitiesOf] at h0
  have h2 : trades ≠ [] := by
    intro h
    rw [h] at h1
    simp [executedOf] at h1
  have hlen : 2 ≤ (equitiesOf (executedOf trades)).length := by
    have := returnsOf_length (equitiesOf (executedOf trades))
    omega
  have hne : returnsOf (equitiesOf (executedOf trades)) ≠ [] := by
    intro h
    rw [h] at h3
    simp at h3
  simp only [getSessionSummary]
  rw [if_neg h2, if_neg h1]
  simp only [if_neg h0]
  rw [if_pos (show 2 ≤ (equitiesOf (executedOf trades)).length ∧
      returnsOf (equitiesOf (executedOf trades)) ≠ [] ∧
      2 ≤ (returnsOf (equitiesOf (executedOf trades))).length from ⟨hlen, hne, h3⟩)]
  rw [if_pos (show 2 ≤ (equitiesOf (executedOf trades)).length ∧
      returnsOf (equitiesOf (executedOf trades)) ≠ [] from ⟨hlen, hne⟩)]

/-- A trade log with three executed records whose equity trail is
4, 8, 4 - two returns of +100% and -50%. -/
def c9Trades : List TradeRec :=
  [{ side := "buy", status := "submitted", equity := 4, netPnl := 0 },
    { side := "sell", status := "submitted", equity := 8, netPnl := 4 },
    { side := "buy", status := "submitted", equity := 4, netPnl := 0 }]

/-- Helper: the returns of the c9Trades equity trail. -/
lemma c9Trades_returns : returnsOf (equitiesOf (executedOf c9Trades)) = [1, -(1 / 2)] := by
  have he : executedOf c9Trades = c9Trades := by
    simp [c9Trades, executedOf, List.filter_cons]
  have he2 : equitiesOf c9Trades = [4, 8, 4] := by
    simp [c9Trades, equitiesOf, List.filter_cons]
  rw [he, he2]
  norm_num [returnsOf]

/-- C9 counterexample: on the trade log with equities 4, 8, 4 the summary
volatility is 75 (one hundred times the population standard deviation 3/4 of
np.std), while the sample standard deviation of the returns is
sqrt(9/8) < 3: the summary volatility is not the sample standard deviation,
both because np.std uses ddof = 0 and because the summary reports the value
multiplied by 100. -/
theorem volatility_sample_std_cx :
    (getSessionSummary c9Trades 4).volatility ≠
      Real.sqrt ((sampleVar (returnsOf (equitiesOf (executedOf c9Trades))) : ℚ) : ℝ) := by
  have hv : (getSessionSummary c9Trades 4).volatility = 75 := by
    rw [summary_volatility_eq c9Trades 4 (by rw [c9Trades_returns]; norm_num)]
    rw [c9Trades_returns]
    have hp : popVar [1, -(1 / 2)] = 9 / 16 := by norm_num [popVar, listMean]
    rw [hp]
    rw [show (((9 : ℚ) / 16 : ℚ) : ℝ) = ((3 : ℝ) / 4) ^ 2 by norm_num]
    rw [Real.sqrt_sq (by norm_num)]
    norm_num
  rw [hv, c9Trades_returns]
  have hs : sampleVar [1, -(1 / 2)] = 9 / 8 := by norm_num [sampleVar, listMean]
  rw [hs]
  have hle : Real.sqrt (((9 : ℚ) / 8 : ℚ) : ℝ) ≤ 3 := by
    rw [show ((((9 : ℚ) / 8 : ℚ)) : ℝ) = ((9 : ℝ) / 8) by norm_num]
    calc Real.sqrt ((9 : ℝ) / 8) ≤ Real.sqrt 9 := Real.sqrt_le_sqrt (by norm_num)
      _ = 3 := by
          rw [show (9 : ℝ) = 3 ^ 2 by norm_num, Real.sqrt_sq (by norm_num)]
  intro hEq
  rw [← hEq] at hle
  linarith

/-- C9 (amended): for every trade log whose equity trail yields at least two
per-step simple returns, the summary volatility equals 100 times the
population standard deviation (np.std with ddof = 0) of those returns - not
the sample standard deviation - and sharpe_ratio equals
(mean(returns) / popstd) * sqrt 252 when popstd > 0 and 0 otherwise, with
popstd the unscaled population standard deviation. -/
theorem summary_volatility_sharpe (trades : List TradeRec) (startE : ℚ)
    (h3 : 2 ≤ (returnsOf (equitiesOf (executedOf trades))).length) :
    (getSessionSummary trades startE).volatility =
      Real.sqrt ((popVar (returnsOf (equitiesOf (executedOf trades))) : ℚ) : ℝ)
        * 100 ∧
    (getSessionSummary trades startE).sharpeRatio =
      (if 0 < Real.sqrt ((popVar (returnsOf (equitiesOf (executedOf trades))) : ℚ) : ℝ)
        then ((listMean (returnsOf (equitiesOf (executedOf trades))) : ℚ) : ℝ) /
          Real.sqrt ((popVar (returnsOf (equitiesOf (executedOf trades))) : ℚ) : ℝ)
        else 0) * Real.sqrt 252 :=
  ⟨summary_volatility_eq trades startE h3, summary_sharpe_eq trades startE h3⟩

/-- Witness for C9 on the concrete trade log with equities 4, 8, 4. -/
theorem summary_volatility_sharpe_witness :
    (getSessionSummary c9Trades 4).volatility =
      Real.sqrt ((popVar (returnsOf (equitiesOf (executedOf c9Trades))) : ℚ) : ℝ)
        * 100 ∧
    (getSessionSummary c9Trades 4).sharpeRatio =
      (if 0 < Real.sqrt ((popVar (returnsOf (equitiesOf (executedOf c9Trades))) : ℚ) : ℝ)
        then ((listMean (returnsOf (equitiesOf (executedOf c9Trades))) : ℚ) : ℝ) /
          Real.sqrt ((popVar (returnsOf (equitiesOf (executedOf c9Trades))) : ℚ) : ℝ)
        else 0) * Real.sqrt 252 :=
  summary_volatility_sharpe c9Trades 4 (by rw [c9Trades_returns]; norm_num)

end Trading
